import Mathlib

/-!
Shallow embedding of the zhook-client connection core (`src/client.ts`).

The client is single-threaded and event-driven: every state change happens
inside one of the methods `connect`, `close`, `handleOpen` (the transport
`open` listener body), `handleMessage`, `handleDisconnect`,
`attemptReconnection`, `resetReconnectionState`, or the reconnection-timer
callback.  Each of these is embedded as a pure function
`ClientState → ClientState × List Out`, where `Out` records the externally
observable effects the method performs (errors emitted through `emitError`,
timers scheduled/cleared, WebSocket actions, promise resolutions, handler
invocations, diagnostic log excerpts), in the order the source performs them.

Numbers: close codes are `Nat`; delays and the `Math.random()` draw are `ℚ`
(the source only multiplies, adds and takes `Math.max`, all exact on the
rationals for the values involved).  JS strings are `String`.
-/

namespace Zhook

/-- Connection states, from the `ConnectionState` constant object. -/
inductive ConnState
  | disconnected
  | connecting
  | connected
  | reconnecting
  | closed
deriving DecidableEq, Repr

/-- Observable effects performed by the client methods, in program order.
`errorEmitted m` is a call of `emitError` with an `Error` whose message is
`m` (the source delivers it to each registered error handler, or logs and
drops it when none are registered). `invoked i threw` records the call of
the handler stored at index `i` of the handler list and whether it threw. -/
inductive Out
  | errorEmitted (msg : String)
  | timerScheduled (delay : ℚ)
  | timerCleared
  | removeAllListeners
  | socketClosed (code : Nat) (reason : String)
  | socketCreated
  | logged (excerpt : String)
  | resolved
  | rejected (msg : String)
  | invoked (idx : Nat) (threw : Bool)
deriving DecidableEq, Repr

/-- The mutable fields of `HookRClient` used by the connection core.
`wsAttached` is true when `this.ws` is a live socket with listeners
attached (`close()` removes the listeners and nulls the field). -/
structure ClientState where
  connectionState : ConnState := .disconnected
  clientId : Option String := none
  reconnectAttempts : Nat := 0
  reconnectTimer : Option ℚ := none
  isClosed : Bool := false
  wsAttached : Bool := false
deriving DecidableEq, Repr

/-- The two options of `HookRClientOptions` that drive the reconnection
algorithm (validated: `maxReconnectAttempts ≥ 0`, `reconnectDelay ≥ 100`). -/
structure Options where
  maxReconnectAttempts : Nat
  reconnectDelay : Nat
deriving DecidableEq, Repr

/-- `WEBSITE_CONFIG.AUTH_VERIFICATION_MESSAGE` from `constants.ts`. -/
def authVerificationMessage : String :=
  "Visit https://zhook.dev to verify your client key"

/-- `WebsiteMessages.authenticationFailed(reason)` from `constants.ts`;
an empty `reason` is falsy in JS, selecting the bare base message. -/
def authenticationFailed (reason : String) : String :=
  (if reason = "" then "Authentication failed"
   else "Authentication failed: " ++ reason) ++ ". " ++ authVerificationMessage

/-- Message of the error emitted when the retry scheduler is entered with the
attempt counter already at the configured maximum (`client.ts:599`). -/
def maxAttemptsMsg (m : Nat) : String :=
  "Maximum reconnection attempts (" ++ toString m ++ ") reached"

/-- Message of the error emitted when a scheduled reconnection attempt fails
with the counter at the maximum (`client.ts:658`). -/
def exhaustedMsg (lastError : String) : String :=
  "All reconnection attempts failed. Last error: " ++ lastError

/-- Substring occurrence on character lists: `pat` occurs in `l` iff it is a
prefix of some suffix of `l`. -/
def containsChars (l pat : List Char) : Bool :=
  pat.isPrefixOf l ||
    match l with
    | [] => false
    | _ :: rest => containsChars rest pat

/-- JS `String.prototype.includes`, on the character lists of the strings. -/
def containsSub (s pat : String) : Bool :=
  containsChars s.data pat.data

/-- JS `String.prototype.toLowerCase`, modelled character by character. -/
def lowerStr (s : String) : String :=
  ⟨s.data.map Char.toLower⟩

/-- The close classification of `handleDisconnect` (`client.ts:568`):
`code === 1008 || code === 4001 ||
 reason.toLowerCase().includes('auth') ||
 reason.toLowerCase().includes('invalid')`. -/
def isAuthFailureClose (code : Nat) (reason : String) : Bool :=
  code == 1008 || code == 4001 ||
    containsSub (lowerStr reason) "auth" || containsSub (lowerStr reason) "invalid"

/-- `baseDelay * Math.pow(2, this.reconnectAttempts - 1)` (`client.ts:611`),
`n` being the just-incremented attempt counter. -/
def exponentialDelay (baseDelay : Nat) (n : Nat) : ℚ :=
  (baseDelay : ℚ) * 2 ^ (n - 1)

/-- `exponentialDelay * 0.25 * (Math.random() - 0.5)` (`client.ts:615`),
with `r` the `Math.random()` draw, so `r ∈ [0, 1)`. -/
def jitterOf (expDelay : ℚ) (r : ℚ) : ℚ :=
  expDelay * (1 / 4) * (r - 1 / 2)

/-- `Math.max(100, exponentialDelay + jitter)` (`client.ts:616`):
the 100 ms floor is applied after the jitter perturbation. -/
def finalDelay (baseDelay : Nat) (n : Nat) (r : ℚ) : ℚ :=
  max 100 (exponentialDelay baseDelay n + jitterOf (exponentialDelay baseDelay n) r)

/-- `resetReconnectionState` (`client.ts:670`): zero the counter and clear a
pending reconnection timer. -/
def resetReconnectionState (s : ClientState) : ClientState × List Out :=
  ({ s with reconnectAttempts := 0, reconnectTimer := none },
   if s.reconnectTimer.isSome then [Out.timerCleared] else [])

/-- `attemptReconnection` (`client.ts:589`): bail out when closed; when the
counter has reached the maximum, go to `disconnected` and emit the
max-attempts error without scheduling; otherwise increment the counter,
enter `reconnecting`, clear any stale timer and schedule the next attempt
after the jittered exponential backoff delay computed with draw `r`. -/
def attemptReconnection (o : Options) (r : ℚ) (s : ClientState) :
    ClientState × List Out :=
  if s.isClosed then (s, [])
  else if o.maxReconnectAttempts ≤ s.reconnectAttempts then
    ({ s with connectionState := .disconnected },
     [Out.errorEmitted (maxAttemptsMsg o.maxReconnectAttempts)])
  else
    let n := s.reconnectAttempts + 1
    let d := finalDelay o.reconnectDelay n r
    ({ s with reconnectAttempts := n, connectionState := .reconnecting,
              reconnectTimer := some d },
     (if s.reconnectTimer.isSome then [Out.timerCleared] else []) ++
       [Out.timerScheduled d])

/-- `handleDisconnect` (`client.ts:558`): ignored on a closed client;
otherwise force `disconnected`, clear the identity, and either emit the
authentication error (no retry) or enter the retry scheduler. -/
def handleDisconnect (o : Options) (r : ℚ) (code : Nat) (reason : String)
    (s : ClientState) : ClientState × List Out :=
  if s.isClosed then (s, [])
  else
    let s1 := { s with connectionState := .disconnected, clientId := none }
    if isAuthFailureClose code reason then
      (s1, [Out.errorEmitted (authenticationFailed reason)])
    else
      attemptReconnection o r s1

/-- The synchronous prefix of `connect()` (`client.ts:245`): throw when
closed, resolve as a no-op when already connected, otherwise enter
`connecting` and create the WebSocket with its listeners. -/
def connectStart (s : ClientState) : ClientState × List Out :=
  if s.isClosed then
    (s, [Out.rejected ("Cannot connect: client has been closed")])
  else if s.connectionState = .connected then
    (s, [Out.resolved])
  else
    ({ s with connectionState := .connecting, wsAttached := true },
     [Out.socketCreated])

/-- Body of the transport `open` listener (`client.ts:272`): enter
`connected`, reset the reconnection state, resolve the pending connect. -/
def handleOpen (s : ClientState) : ClientState × List Out :=
  let s1 := { s with connectionState := .connected }
  let (s2, o2) := resetReconnectionState s1
  (s2, o2 ++ [Out.resolved])

/-- `close()` (`client.ts:340`): already-closed calls return immediately;
the first call marks the client closed, cancels the reconnection state,
removes the socket listeners before closing the socket, and clears the
identity and counter. -/
def close (s : ClientState) : ClientState × List Out :=
  if s.isClosed then (s, [])
  else
    let s1 := { s with isClosed := true, connectionState := .closed }
    let (s2, o2) := resetReconnectionState s1
    let (s3, o3) :=
      if s2.wsAttached then
        ({ s2 with wsAttached := false },
         [Out.removeAllListeners, Out.socketClosed 1000 "Client closed"])
      else (s2, [])
    ({ s3 with clientId := none, reconnectAttempts := 0 }, o2 ++ o3)

/-- A webhook-event wire message (`{type:"event", ...}`). -/
structure WebhookEvent where
  eventId : String
  hookId : String
  receivedAt : String
  payload : String
deriving DecidableEq, Repr

/-- A connection-confirmation wire message (`{type:"connected", ...}`). -/
structure ConnectionEvent where
  message : String
  clientId : String
deriving DecidableEq, Repr

/-- A registered handler (`HandlerEntry` in the source: a type tag plus a
callback).  The callback is modelled by its observable behaviour: `none`
means it returns normally, `some m` means it throws an error with
message `m`. -/
inductive HandlerEntry
  | event (cb : WebhookEvent → Option String)
  | connection (cb : ConnectionEvent → Option String)
  | error (cb : String → Option String)

/-- Whether an entry has type tag `'event'`. -/
def HandlerEntry.isEventKind : HandlerEntry → Bool
  | .event _ => true
  | _ => false

/-- `handleWebhookEvent`'s loop (`client.ts:539`): filter the handler list
to the `'event'`-tagged entries and invoke each in order inside
`try { ... } catch { log }` — a throwing handler is caught and the loop
continues with the next entry.  The list is indexed so the invocation
record names the position of each entry in the full handler list. -/
def invokeEventHandlers : List (Nat × HandlerEntry) → WebhookEvent → List Out
  | [], _ => []
  | (i, .event cb) :: rest, ev =>
      Out.invoked i (cb ev).isSome :: invokeEventHandlers rest ev
  | _ :: rest, ev => invokeEventHandlers rest ev

/-- `handleConnectionConfirmation`'s loop (`client.ts:514`): invoke each
`'connection'`-tagged handler; a throwing handler is caught and reported
through `emitError` with a `Connection handler error:` message. -/
def invokeConnectionHandlers :
    List (Nat × HandlerEntry) → ConnectionEvent → List Out
  | [], _ => []
  | (i, .connection cb) :: rest, e =>
      match cb e with
      | none => Out.invoked i false :: invokeConnectionHandlers rest e
      | some m =>
          Out.invoked i true ::
            Out.errorEmitted ("Connection handler error: " ++ m) ::
              invokeConnectionHandlers rest e
  | _ :: rest, e => invokeConnectionHandlers rest e

/-- `handleWebhookEvent` (`client.ts:531`): dispatch to the event handlers;
the client state is not touched. -/
def handleWebhookEvent (hs : List HandlerEntry) (ev : WebhookEvent)
    (s : ClientState) : ClientState × List Out :=
  (s, invokeEventHandlers hs.enum ev)

/-- `handleConnectionConfirmation` (`client.ts:502`): store the assigned
client id, then dispatch to the connection handlers. -/
def handleConnectionConfirmation (hs : List HandlerEntry)
    (e : ConnectionEvent) (s : ClientState) : ClientState × List Out :=
  ({ s with clientId := some e.clientId }, invokeConnectionHandlers hs.enum e)

/-- Result of `JSON.parse` on an inbound payload, after the `type` dispatch
of `handleMessage`: a confirmation, a webhook event, or an unknown type. -/
inductive ParsedMsg
  | connectedMsg (e : ConnectionEvent)
  | eventMsg (ev : WebhookEvent)
  | other (type : String)

/-- An inbound raw payload together with the outcome of `JSON.parse` on it:
`unparsable raw errMsg` is a payload on which `JSON.parse` throws an error
with message `errMsg`; `parsed m` is a well-formed payload. -/
inductive Inbound
  | unparsable (raw : String) (errMsg : String)
  | parsed (m : ParsedMsg)

/-- JS `raw.substring(0, 200)`: the bounded diagnostic excerpt logged for an
unparsable payload (modelled on the character list of the string). -/
def excerpt (raw : String) : String :=
  ⟨raw.data.take 200⟩

/-- `handleMessage` (`client.ts:472`): parse failures log a bounded excerpt
of the raw payload and emit exactly one `Message parsing failed:` error
without touching the state; recognised messages are dispatched; unknown
types are logged at warning level and otherwise ignored. -/
def handleMessage (hs : List HandlerEntry) (d : Inbound) (s : ClientState) :
    ClientState × List Out :=
  match d with
  | .unparsable raw errMsg =>
      (s, [Out.logged (excerpt raw),
           Out.errorEmitted ("Message parsing failed: " ++ errMsg)])
  | .parsed (.connectedMsg e) => handleConnectionConfirmation hs e s
  | .parsed (.eventMsg ev) => handleWebhookEvent hs ev s
  | .parsed (.other _) => (s, [])

/-- Outcome of the `connect()` started by the reconnection-timer callback:
it either succeeds (the socket opens) or the promise rejects with the given
message (`WebSocket connection failed: ...` or `Connection timeout`). -/
inductive AttemptOutcome
  | success
  | failure (rejectMsg : String)
deriving DecidableEq, Repr

/-- The reconnection-timer callback (`client.ts:630`) together with the
outcome of the `connect()` call it makes.  The callback clears the timer
field, bails out when closed, and calls `connect()`.  On success the new
socket's `open` listener runs (`handleOpen`).  On failure the `error`
listener forces `disconnected` and rejects, and the `.catch` either
re-enters the retry scheduler (counter below maximum) or emits the
`All reconnection attempts failed` error. -/
def timerFired (o : Options) (r : ℚ) (oc : AttemptOutcome) (s : ClientState) :
    ClientState × List Out :=
  match s.reconnectTimer with
  | none => (s, [])
  | some _ =>
    let s0 := { s with reconnectTimer := none }
    if s0.isClosed then (s0, [])
    else
      match oc with
      | .success =>
          let (s1, o1) := connectStart s0
          let (s2, o2) := handleOpen s1
          (s2, o1 ++ o2)
      | .failure rejectMsg =>
          let (s1, o1) := connectStart s0
          let s2 := { s1 with connectionState := .disconnected }
          if s2.reconnectAttempts < o.maxReconnectAttempts then
            let (s3, o3) := attemptReconnection o r s2
            (s3, (o1 ++ [Out.rejected rejectMsg]) ++ o3)
          else
            ({ s2 with connectionState := .disconnected },
             (o1 ++ [Out.rejected rejectMsg]) ++
               [Out.errorEmitted (exhaustedMsg rejectMsg)])

/-- The events that can reach the client: API calls, transport listener
callbacks (deliverable only while the socket listeners are attached), and
the reconnection-timer callback (deliverable only while a timer is
pending, which the `timerFired` guard enforces). -/
inductive Event
  | callClose
  | callConnect
  | wsOpen
  | wsClose (code : Nat) (reason : String)
  | wsMessage (d : Inbound)
  | timer (oc : AttemptOutcome)

/-- One event delivery.  Transport callbacks fire only when the socket's
listeners are attached (`close()` detaches them). -/
def step (o : Options) (r : ℚ) (hs : List HandlerEntry) (s : ClientState) :
    Event → ClientState × List Out
  | .callClose => close s
  | .callConnect => connectStart s
  | .wsOpen => if s.wsAttached then handleOpen s else (s, [])
  | .wsClose code reason =>
      if s.wsAttached then handleDisconnect o r code reason s else (s, [])
  | .wsMessage d => if s.wsAttached then handleMessage hs d s else (s, [])
  | .timer oc => timerFired o r oc s

/-- Deliver a list of events in order, concatenating the observed effects. -/
def run (o : Options) (r : ℚ) (hs : List HandlerEntry) :
    ClientState → List Event → ClientState × List Out
  | s, [] => (s, [])
  | s, e :: es =>
      let (s1, o1) := step o r hs s e
      let (s2, o2) := run o r hs s1 es
      (s2, o1 ++ o2)

/-- Recogniser for error-channel emissions among the observed effects. -/
def isErrorEmission : Out → Bool
  | .errorEmitted _ => true
  | _ => false

/-- Recogniser for scheduled reconnection attempts. -/
def isScheduleOut : Out → Bool
  | .timerScheduled _ => true
  | _ => false

/-- An emission of the maximum-reconnection-attempts class: either the
`Maximum reconnection attempts (N) reached` error of the scheduler's entry
guard or the `All reconnection attempts failed` error of the retry loop. -/
def isMaxClassEmission : Out → Bool
  | .errorEmitted m =>
      "Maximum reconnection attempts".data.isPrefixOf m.data ||
        "All reconnection attempts failed".data.isPrefixOf m.data
  | _ => false

/-- A connected client that has just completed a successful handshake. -/
def connectedState : ClientState :=
  { connectionState := .connected, clientId := some ("client-1"),
    reconnectAttempts := 0, reconnectTimer := none,
    isClosed := false, wsAttached := true }

/-- A closed client after `close()` has run: `close` is the only setter of
`isClosed`, and it forces exactly this configuration of the other fields. -/
def closedState : ClientState :=
  { connectionState := .closed, clientId := none, reconnectAttempts := 0,
    reconnectTimer := none, isClosed := true, wsAttached := false }

/-- Reachability invariant of the source: `isClosed` is set only by `close()`,
which in the same call forces state `closed`, detaches the socket listeners,
cancels the timer, and clears the identity and the counter; nothing mutates
these fields afterwards. -/
def ClosedConsistent (s : ClientState) : Prop :=
  s.isClosed = true →
    s.connectionState = .closed ∧ s.wsAttached = false ∧ s.reconnectTimer = none ∧
      s.clientId = none ∧ s.reconnectAttempts = 0

/-- The configuration of the C1 scenario:
`maxReconnectAttempts = 3`, `reconnectDelay = 1000`. -/
def c1Opts : Options := { maxReconnectAttempts := 3, reconnectDelay := 1000 }

/-- The C1 scenario: a non-authentication close while connected, followed by
three consecutive reconnection attempts whose `connect()` calls all fail. -/
def c1Events : List Event :=
  [.wsClose 1006 "going away",
   .timer (.failure ("Connection timeout")),
   .timer (.failure ("Connection timeout")),
   .timer (.failure ("WebSocket connection failed: connect ECONNREFUSED"))]

/-- A configuration that allows no reconnection attempts at all
(`maxReconnectAttempts = 0` passes the validator: any non-negative integer). -/
def noRetryOpts : Options := { maxReconnectAttempts := 0, reconnectDelay := 1000 }

/-- Index of the handler an `invoked` record refers to. -/
def invokedIdx : Out → Option Nat
  | .invoked i _ => some i
  | _ => none

/-- The handler positions invoked during a dispatch, in invocation order. -/
def invocationIndices (outs : List Out) : List Nat :=
  outs.filterMap invokedIdx

/-- The positions of the `'event'`-tagged entries of the handler list, in
registration order. -/
def eventIndicesOf (hs : List HandlerEntry) : List Nat :=
  (hs.enum.filter fun p => p.2.isEventKind).map Prod.fst

/-- A sample webhook event for the concrete dispatch scenario. -/
def sampleEvent : WebhookEvent :=
  { eventId := "evt-1", hookId := "hook-1",
    receivedAt := "2026-01-01T00:00:00Z", payload := "data" }

/-- Event handler A of the C6 scenario: always throws. -/
def handlerA : HandlerEntry := .event fun _ => some ("boom")

/-- Event handler B of the C6 scenario: returns normally. -/
def handlerB : HandlerEntry := .event fun _ => none

/-- Event handler C of the C6 scenario: returns normally. -/
def handlerC : HandlerEntry := .event fun _ => none

/-- Outcome of `new URL(raw)` on a hook-URL field: the parsed protocol when
the constructor succeeds, or the thrown message when it fails.  The URL
parser itself is outside the embedding, so each input carries its oracle. -/
inductive UrlParse
  | ok (protocol : String)
  | err (msg : String)
deriving DecidableEq, Repr

/-- A hook-URL value together with its `new URL` parse outcome. -/
structure UrlField where
  raw : String := ""
  parse : UrlParse
deriving DecidableEq, Repr

/-- A hook retry policy.  `maxAttempts : Int` encodes the source's
`Number.isInteger` requirement by typing; the sign check remains. -/
structure RetryPolicy where
  maxAttempts : Int
  backoffMultiplier : ℚ
deriving DecidableEq, Repr

/-- A partial hook configuration for `updateHook`: `none` marks an absent
field (JS: key not present / value `undefined`). -/
structure PartialHookConfig where
  name : Option String := none
  url : Option UrlField := none
  events : Option (List String) := none
  headers : Option (List (String × String)) := none
  retryPolicy : Option RetryPolicy := none

/-- `Object.keys(config).length` for a partial hook configuration. -/
def keysCount (c : PartialHookConfig) : Nat :=
  (if c.name.isSome then 1 else 0) + (if c.url.isSome then 1 else 0) +
    (if c.events.isSome then 1 else 0) + (if c.headers.isSome then 1 else 0) +
    (if c.retryPolicy.isSome then 1 else 0)

/-- The `config.name` branch of `validatePartialHookConfig`
(`client.ts:1007`); the `typeof` check holds by typing. -/
def checkPartialName : Option String → Except String Unit
  | none => .ok ()
  | some n =>
      if n.trim.length = 0 then .error ("Hook name must be a non-empty string")
      else .ok ()

/-- The `config.url` branch (`client.ts:1013`): a `new URL` failure, and also
the inner non-http-protocol throw, are wrapped by the surrounding catch into
an `Invalid hook URL:` error. -/
def checkPartialUrl : Option UrlField → Except String Unit
  | none => .ok ()
  | some u =>
      match u.parse with
      | .err m => .error ("Invalid hook URL: " ++ m)
      | .ok protocol =>
          if protocol = "http:" ∨ protocol = "https:" then .ok ()
          else .error ("Invalid hook URL: Hook URL must use http:// or https:// protocol")

/-- The `config.events` branch (`client.ts:1029`): the array-of-strings
checks hold by the typing of the model. -/
def checkPartialEvents : Option (List String) → Except String Unit
  | _ => .ok ()

/-- The `config.headers` branch (`client.ts:1040`): the string key/value
checks hold by the typing of the model. -/
def checkPartialHeaders : Option (List (String × String)) → Except String Unit
  | _ => .ok ()

/-- The `config.retryPolicy` branch (`client.ts:1051`). -/
def checkPartialRetryPolicy : Option RetryPolicy → Except String Unit
  | none => .ok ()
  | some rp =>
      if rp.maxAttempts < 0 then
        .error ("Retry policy maxAttempts must be a non-negative integer")
      else if rp.backoffMultiplier ≤ 0 then
        .error ("Retry policy backoffMultiplier must be a positive number")
      else .ok ()

/-- `validatePartialHookConfig` (`client.ts:997`): reject an empty update
object, then validate each present field in source order. -/
def validatePartialHookConfig (c : PartialHookConfig) : Except String Unit :=
  if keysCount c = 0 then .error ("At least one field must be provided for update")
  else do
    checkPartialName c.name
    checkPartialUrl c.url
    checkPartialEvents c.events
    checkPartialHeaders c.headers
    checkPartialRetryPolicy c.retryPolicy

/-- `validateHookId` (`client.ts:1080`): `!hookId` is the empty string in the
model, then the whitespace-only check. -/
def validateHookId (hookId : String) : Except String Unit :=
  if hookId = "" then .error ("Hook ID is required and must be a string")
  else if hookId.trim.length = 0 then .error ("Hook ID cannot be empty")
  else .ok ()

/-- The HTTP request `makeApiRequest` would issue. -/
structure ApiRequest where
  method : String
  url : String
deriving DecidableEq, Repr

/-- The part of `updateHook` (`client.ts:777`) up to the network call: both
validations run synchronously first; only when they pass is a `PUT` request
to `/hooks/:id` produced.  The validators and this prefix read no mutable
client state, mirroring the source methods, which only read `this.options`. -/
def updateHookStart (apiUrl hookId : String) (c : PartialHookConfig) :
    Except String ApiRequest := do
  validateHookId hookId
  validatePartialHookConfig c
  pure { method := "PUT", url := apiUrl ++ "/hooks/" ++ hookId }

/-- `updateHook(id, {})`: the empty partial configuration. -/
def emptyPartialConfig : PartialHookConfig := {}

/-! Theorems. -/

/-- Helper: `close()` on a not-yet-closed client always produces the one
canonical closed configuration of the mutable fields. -/
theorem close_result_of_open (s : ClientState) (h : s.isClosed = false) :
    (close s).1 = closedState := by
  cases hw : s.wsAttached <;> simp [close, resetReconnectionState, h, hw, closedState]

/-- Helper: no deliverable event moves the state of a closed client. -/
theorem step_fixes_closedState (o : Options) (r : ℚ) (hs : List HandlerEntry) (e : Event) :
    (step o r hs closedState e).1 = closedState := by
  cases e <;> simp [step, close, connectStart, timerFired, closedState]

/-- Helper: the dispatch loop of `handleWebhookEvent` invokes exactly the
`'event'`-tagged entries, in list order, whatever the callbacks do. -/
theorem invokeEventHandlers_indices (l : List (Nat × HandlerEntry)) (ev : WebhookEvent) :
    invocationIndices (invokeEventHandlers l ev) =
      (l.filter fun p => p.2.isEventKind).map Prod.fst := by
  unfold invocationIndices
  induction l with
  | nil => rfl
  | cons p rest ih =>
    obtain ⟨i, h⟩ := p
    cases h <;>
      simp [invokeEventHandlers, invokedIdx, HandlerEntry.isEventKind,
        List.filterMap_cons, ih]

/-- Helper: the positions of the event handlers are strictly increasing, so
each registered event handler occurs exactly once, in registration order. -/
theorem eventIndicesOf_pairwise (hs : List HandlerEntry) :
    (eventIndicesOf hs).Pairwise (· < ·) := by
  have h1 : List.Sublist ((hs.enum.filter fun p => p.2.isEventKind).map Prod.fst)
      (hs.enum.map Prod.fst) := (List.filter_sublist _).map _
  rw [List.enum_map_fst] at h1
  exact (List.pairwise_lt_range _).sublist h1

/-- Claim C1: with `maxReconnectAttempts = 3` and `reconnectDelay = 1000`, a
connected client that receives a non-authentication close followed by three
consecutive failed reconnection attempts ends `disconnected`, emits exactly
one maximum-reconnection-attempts-class error (and no other error), schedules
exactly three attempts (never a fourth), holds no pending timer, and reaches
attempt counter 3 — each failure re-enters the retry scheduler instead of
being counted as a fresh disconnect. -/
theorem C1_reconnect_exhaustion :
    (run c1Opts (1/2) [] connectedState c1Events).1.connectionState = .disconnected ∧
    ((run c1Opts (1/2) [] connectedState c1Events).2.filter isMaxClassEmission).length = 1 ∧
    ((run c1Opts (1/2) [] connectedState c1Events).2.filter isErrorEmission).length = 1 ∧
    ((run c1Opts (1/2) [] connectedState c1Events).2.filter isScheduleOut).length = 3 ∧
    (run c1Opts (1/2) [] connectedState c1Events).1.reconnectTimer = none ∧
    (run c1Opts (1/2) [] connectedState c1Events).1.reconnectAttempts = 3 := by
  decide

/-- Claim C2 (amended): for every close processed while not closed, an
authentication-classified close (sentinel code or reason containing
"auth"/"invalid" case-insensitively) ends `disconnected` with the identity
cleared, emits the authentication error and schedules no retry; every other
close invokes the retry scheduler, which enters `reconnecting` and schedules
an attempt when the counter is below the maximum, and otherwise ends
`disconnected` emitting the max-attempts error with no retry scheduled. -/
theorem C2_close_classification (o : Options) (r : ℚ) (code : Nat) (reason : String)
    (s : ClientState) (hns : s.isClosed = false) :
    (isAuthFailureClose code reason = true →
      handleDisconnect o r code reason s =
        ({ s with connectionState := .disconnected, clientId := none },
         [Out.errorEmitted (authenticationFailed reason)])) ∧
    (isAuthFailureClose code reason = false →
      s.reconnectAttempts < o.maxReconnectAttempts →
      handleDisconnect o r code reason s =
        ({ s with connectionState := .reconnecting, clientId := none,
                  reconnectAttempts := s.reconnectAttempts + 1,
                  reconnectTimer :=
                    some (finalDelay o.reconnectDelay (s.reconnectAttempts + 1) r) },
         (if s.reconnectTimer.isSome then [Out.timerCleared] else []) ++
           [Out.timerScheduled (finalDelay o.reconnectDelay (s.reconnectAttempts + 1) r)])) ∧
    (isAuthFailureClose code reason = false →
      o.maxReconnectAttempts ≤ s.reconnectAttempts →
      handleDisconnect o r code reason s =
        ({ s with connectionState := .disconnected, clientId := none },
         [Out.errorEmitted (maxAttemptsMsg o.maxReconnectAttempts)])) := by
  refine ⟨fun h1 => ?_, fun h1 h2 => ?_, fun h1 h2 => ?_⟩
  · simp [handleDisconnect, hns, h1]
  · simp [handleDisconnect, attemptReconnection, hns, h1, Nat.not_le.mpr h2]
  · simp [handleDisconnect, attemptReconnection, hns, h1, h2]

/-- Claim C2 counterexample: with `maxReconnectAttempts = 0`, a connected,
not-closed client receiving the non-authentication close `(1006, "network
error")` ends `disconnected`, not `reconnecting` — refuting the claim that
every non-authentication close transitions the state to `reconnecting`. -/
theorem C2_counterexample :
    isAuthFailureClose 1006 "network error" = false ∧
    connectedState.isClosed = false ∧
    (handleDisconnect noRetryOpts (1/2) 1006 "network error" connectedState).1.connectionState =
      .disconnected ∧
    (handleDisconnect noRetryOpts (1/2) 1006 "network error" connectedState).1.connectionState ≠
      .reconnecting := by
  decide

/-- Claim C2 witness: both classification branches at concrete inputs — an
authentication close by code 1008, and a plain close scheduling a retry. -/
theorem C2_close_classification_witness :
    (handleDisconnect c1Opts (1/2) 1008 "policy violation" connectedState =
      ({ connectedState with connectionState := .disconnected, clientId := none },
       [Out.errorEmitted (authenticationFailed ("policy violation"))])) ∧
    (handleDisconnect c1Opts (1/2) 1006 "going away" connectedState =
      ({ connectedState with connectionState := .reconnecting, clientId := none,
                             reconnectAttempts := 1,
                             reconnectTimer := some (finalDelay 1000 1 (1/2)) },
       [Out.timerScheduled (finalDelay 1000 1 (1/2))])) := by
  constructor
  · exact (C2_close_classification c1Opts (1/2) 1008 "policy violation" connectedState
      rfl).1 (by decide)
  · have h := (C2_close_classification c1Opts (1/2) 1006 "going away" connectedState
      rfl).2.1 (by decide) (by decide)
    simpa [connectedState, c1Opts] using h

/-- Claim C3 counterexample: at `baseDelay = 1000`, attempt 1 (exponential
value 1000), the claimed ±25% jitter range would span ±250, but the source's
jitter `1000 * 0.25 * (r - 0.5)` attains `-125` at `r = 0`, is bounded by
`125` in magnitude over every draw `r ∈ [0, 1)`, and `125 < 250`: no draw
produces a perturbation beyond ±12.5%. -/
theorem C3_counterexample :
    jitterOf (exponentialDelay 1000 1) 0 = -125 ∧
    (∀ r : ℚ, 0 ≤ r → r < 1 → |jitterOf (exponentialDelay 1000 1) r| ≤ 125) ∧
    (125 : ℚ) < (1 / 4) * exponentialDelay 1000 1 ∧
    ¬ (∃ r : ℚ, 0 ≤ r ∧ r < 1 ∧ 200 ≤ |jitterOf (exponentialDelay 1000 1) r|) := by
  have hb : ∀ r : ℚ, 0 ≤ r → r < 1 → |jitterOf (exponentialDelay 1000 1) r| ≤ 125 := by
    intro r h0 h1
    rw [abs_le]
    constructor <;> · simp [jitterOf, exponentialDelay]; linarith
  refine ⟨by norm_num [jitterOf, exponentialDelay], hb, by norm_num [exponentialDelay], ?_⟩
  rintro ⟨r, h0, h1, h2⟩
  have := hb r h0 h1
  linarith

/-- Claim C3 (amended): for every attempt with counter value `n = attempts+1`
not yet at the maximum, the scheduled delay is exactly
`max(100, exp + jitter)` with `exp = baseDelay * 2^(n-1)` and
`jitter = exp * 0.25 * (r - 0.5)` — the 100 ms floor applied after the
jitter — and for every draw `r ∈ [0, 1)` the jitter magnitude is at most
`exp / 8`, i.e. 12.5% of the exponential value (not 25%). -/
theorem C3_backoff_jitter (o : Options) (r : ℚ) (s : ClientState)
    (hns : s.isClosed = false) (hlt : s.reconnectAttempts < o.maxReconnectAttempts)
    (h0 : 0 ≤ r) (h1 : r < 1) :
    (attemptReconnection o r s).1.reconnectTimer =
      some (max 100 (exponentialDelay o.reconnectDelay (s.reconnectAttempts + 1) +
        jitterOf (exponentialDelay o.reconnectDelay (s.reconnectAttempts + 1)) r)) ∧
    |jitterOf (exponentialDelay o.reconnectDelay (s.reconnectAttempts + 1)) r| ≤
      exponentialDelay o.reconnectDelay (s.reconnectAttempts + 1) / 8 ∧
    (100 : ℚ) ≤ finalDelay o.reconnectDelay (s.reconnectAttempts + 1) r := by
  refine ⟨?_, ?_, le_max_left _ _⟩
  · simp [attemptReconnection, hns, Nat.not_le.mpr hlt, finalDelay]
  · have hE : (0 : ℚ) ≤ exponentialDelay o.reconnectDelay (s.reconnectAttempts + 1) := by
      unfold exponentialDelay
      positivity
    set E := exponentialDelay o.reconnectDelay (s.reconnectAttempts + 1) with hEdef
    rw [abs_le]
    unfold jitterOf
    constructor <;> nlinarith

/-- Claim C3 witness: at `baseDelay = 100`, first attempt, draw `r = 0`, the
scheduled delay is `max(100, 100 - 12.5) = 100` — the clamp acts after the
jitter has pushed the value below the floor. -/
theorem C3_backoff_jitter_witness :
    (attemptReconnection { maxReconnectAttempts := 1, reconnectDelay := 100 } 0
        connectedState).1.reconnectTimer =
      some (max 100 (exponentialDelay 100 (connectedState.reconnectAttempts + 1) +
        jitterOf (exponentialDelay 100 (connectedState.reconnectAttempts + 1)) 0)) ∧
    |jitterOf (exponentialDelay 100 (connectedState.reconnectAttempts + 1)) 0| ≤
      exponentialDelay 100 (connectedState.reconnectAttempts + 1) / 8 ∧
    (100 : ℚ) ≤ finalDelay 100 (connectedState.reconnectAttempts + 1) 0 ∧
    max 100 (exponentialDelay 100 1 + jitterOf (exponentialDelay 100 1) 0) = 100 := by
  have h := C3_backoff_jitter { maxReconnectAttempts := 1, reconnectDelay := 100 } 0
    connectedState rfl (by decide) (by norm_num) (by norm_num)
  refine ⟨h.1, h.2.1, h.2.2, ?_⟩
  have he : exponentialDelay 100 1 + jitterOf (exponentialDelay 100 1) 0 = 175/2 := by
    norm_num [exponentialDelay, jitterOf]
  rw [he]
  norm_num

/-- Claim C4: from any reachable state, `close()` leaves the client in the
terminal closed configuration — state `closed`, timer cancelled, identity and
counter cleared, listeners detached before the socket is closed when one was
attached — a second `close()` does nothing, and no deliverable event moves
the state out of `closed`. -/
theorem C4_close_idempotent_terminal (o : Options) (r : ℚ) (hs : List HandlerEntry)
    (s : ClientState) (e : Event) (hc : ClosedConsistent s) :
    (close s).1.connectionState = .closed ∧
    (close s).1.isClosed = true ∧
    (close s).1.reconnectTimer = none ∧
    (close s).1.clientId = none ∧
    (close s).1.reconnectAttempts = 0 ∧
    (close s).1.wsAttached = false ∧
    close (close s).1 = ((close s).1, []) ∧
    (s.isClosed = false → s.wsAttached = true →
      (close s).2 = (if s.reconnectTimer.isSome then [Out.timerCleared] else []) ++
        [Out.removeAllListeners, Out.socketClosed 1000 "Client closed"]) ∧
    (step o r hs (close s).1 e).1 = (close s).1 := by
  cases hcb : s.isClosed with
  | true =>
    obtain ⟨h1, h2, h3, h4, h5⟩ := hc hcb
    have hse : s = closedState := by
      cases s
      simp_all [closedState]
    subst hse
    have hcs : close closedState = (closedState, []) := by simp [close, closedState]
    rw [hcs]
    exact ⟨rfl, rfl, rfl, rfl, rfl, rfl, hcs, fun hf => by simp [closedState] at hf,
      step_fixes_closedState o r hs e⟩
  | false =>
    have hst := close_result_of_open s hcb
    rw [hst]
    refine ⟨rfl, rfl, rfl, rfl, rfl, rfl, by simp [close, closedState], fun _ hw => ?_,
      step_fixes_closedState o r hs e⟩
    simp [close, resetReconnectionState, hcb, hw]

/-- Claim C4 witness: closing a freshly connected client at a concrete input,
with every hypothesis discharged and both implications exercised. -/
theorem C4_close_idempotent_terminal_witness :
    (close connectedState).1.connectionState = .closed ∧
    (close connectedState).1.isClosed = true ∧
    (close connectedState).1.reconnectTimer = none ∧
    (close connectedState).1.clientId = none ∧
    (close connectedState).1.reconnectAttempts = 0 ∧
    (close connectedState).1.wsAttached = false ∧
    close (close connectedState).1 = ((close connectedState).1, []) ∧
    (close connectedState).2 =
      (if connectedState.reconnectTimer.isSome then [Out.timerCleared] else []) ++
        [Out.removeAllListeners, Out.socketClosed 1000 "Client closed"] ∧
    (step c1Opts (1/2) [] (close connectedState).1 .callConnect).1 =
      (close connectedState).1 := by
  have h := C4_close_idempotent_terminal c1Opts (1/2) [] connectedState .callConnect
    (fun hf => by simp [connectedState] at hf)
  exact ⟨h.1, h.2.1, h.2.2.1, h.2.2.2.1, h.2.2.2.2.1, h.2.2.2.2.2.1, h.2.2.2.2.2.2.1,
    h.2.2.2.2.2.2.2.1 rfl rfl, h.2.2.2.2.2.2.2.2⟩

/-- Claim C5: `connect()` on a closed client rejects with the `ClientClosed`
error, changing no state field and creating no transport; `connect()` while
already connected resolves immediately, equally without touching the state or
opening a socket. -/
theorem C5_connect_on_closed_or_connected (s : ClientState) :
    (s.isClosed = true →
      connectStart s = (s, [Out.rejected ("Cannot connect: client has been closed")])) ∧
    (s.isClosed = false → s.connectionState = .connected →
      connectStart s = (s, [Out.resolved])) := by
  constructor
  · intro h; simp [connectStart, h]
  · intro h1 h2; simp [connectStart, h1, h2]

/-- Claim C5 witness: both branches at concrete states. -/
theorem C5_connect_on_closed_or_connected_witness :
    connectStart closedState =
      (closedState, [Out.rejected ("Cannot connect: client has been closed")]) ∧
    connectStart connectedState = (connectedState, [Out.resolved]) :=
  ⟨(C5_connect_on_closed_or_connected closedState).1 rfl,
   (C5_connect_on_closed_or_connected connectedState).2 rfl rfl⟩

/-- Claim C6: dispatching a webhook event never changes the client state;
the invoked handler positions are exactly the `'event'`-tagged registrations,
in strictly increasing registration order (hence each exactly once),
independently of which callbacks throw; and concretely, with A (throws), B, C
registered, all three are invoked exactly once, in order, A's throw being
caught without stopping B and C. -/
theorem C6_dispatch_isolated (hs : List HandlerEntry) (ev : WebhookEvent) (s : ClientState) :
    (handleWebhookEvent hs ev s).1 = s ∧
    invocationIndices (handleWebhookEvent hs ev s).2 = eventIndicesOf hs ∧
    (eventIndicesOf hs).Pairwise (· < ·) ∧
    (handleWebhookEvent [handlerA, handlerB, handlerC] sampleEvent connectedState).2 =
      [Out.invoked 0 true, Out.invoked 1 false, Out.invoked 2 false] :=
  ⟨rfl, invokeEventHandlers_indices hs.enum ev, eventIndicesOf_pairwise hs, rfl⟩

/-- Claim C7: an unparsable inbound payload produces exactly one error-channel
emission, whose message extends "Message parsing failed", plus one diagnostic
log whose payload excerpt is bounded by 200 characters; the client state is
returned unchanged, so any subsequent message is processed exactly as if the
malformed one had never arrived. -/
theorem C7_parse_failure_isolated (hs : List HandlerEntry) (raw errMsg : String)
    (s : ClientState) (m : Inbound) :
    handleMessage hs (.unparsable raw errMsg) s =
      (s, [Out.logged (excerpt raw),
           Out.errorEmitted ("Message parsing failed: " ++ errMsg)]) ∧
    ((handleMessage hs (.unparsable raw errMsg) s).2.filter isErrorEmission).length = 1 ∧
    (excerpt raw).length ≤ 200 ∧
    (∃ rest, ("Message parsing failed: " ++ errMsg).data =
      "Message parsing failed".data ++ rest) ∧
    handleMessage hs m (handleMessage hs (.unparsable raw errMsg) s).1 =
      handleMessage hs m s := by
  refine ⟨rfl, by simp [handleMessage, isErrorEmission], ?_, ?_, rfl⟩
  · show (raw.data.take 200).length ≤ 200
    rw [List.length_take]
    exact min_le_left _ _
  · refine ⟨(": " ++ errMsg).data, ?_⟩
    rw [String.data_append, String.data_append, ← List.append_assoc]
    congr 1

/-- Claim C8: the transport `open` listener resets the reconnect counter to
zero, clears any pending reconnection timer, sets state `connected` and
resolves the pending connect; and concretely, after a close-triggered
`reconnecting` phase, a successful attempt leaves the counter at 0. -/
theorem C8_open_resets (s : ClientState) :
    handleOpen s =
      ({ s with connectionState := .connected, reconnectAttempts := 0,
                reconnectTimer := none },
       (if s.reconnectTimer.isSome then [Out.timerCleared] else []) ++ [Out.resolved]) ∧
    (run c1Opts (1/2) [] connectedState
        [.wsClose 1012 "service restart", .timer .success]).1 =
      { connectionState := .connected, clientId := none, reconnectAttempts := 0,
        reconnectTimer := none, isClosed := false, wsAttached := true } :=
  ⟨rfl, by decide⟩

/-- Claim C9: `updateHook` with the empty partial configuration always fails
validation synchronously — with the empty-update error when the id passes its
own checks — and never produces an API request, for every id and endpoint. -/
theorem C9_empty_update_rejected (apiUrl hookId : String) :
    updateHookStart apiUrl hookId emptyPartialConfig =
      .error (if hookId = "" then "Hook ID is required and must be a string"
        else if hookId.trim.length = 0 then "Hook ID cannot be empty"
        else "At least one field must be provided for update") ∧
    ∀ req : ApiRequest, updateHookStart apiUrl hookId emptyPartialConfig ≠ .ok req := by
  have hmain : updateHookStart apiUrl hookId emptyPartialConfig =
      .error (if hookId = "" then "Hook ID is required and must be a string"
        else if hookId.trim.length = 0 then "Hook ID cannot be empty"
        else "At least one field must be provided for update") := by
    by_cases h1 : hookId = ""
    · simp [updateHookStart, validateHookId, h1, Bind.bind, Except.bind]
    · by_cases h2 : hookId.trim.length = 0
      · simp [updateHookStart, validateHookId, h1, h2, Bind.bind, Except.bind]
      · simp [updateHookStart, validateHookId, validatePartialHookConfig, keysCount,
          emptyPartialConfig, h1, h2, Bind.bind, Except.bind]
  refine ⟨hmain, fun req h => ?_⟩
  rw [hmain] at h
  exact Except.noConfusion h

/-- Claim C10: a close with code 4001, whatever the reason text, is treated
exactly as an authentication failure on every not-closed client: state
`disconnected`, identity cleared, the authentication error emitted, and no
retry scheduled. -/
theorem C10_code_4001_auth (o : Options) (r : ℚ) (reason : String) (s : ClientState)
    (hns : s.isClosed = false) :
    handleDisconnect o r 4001 reason s =
      ({ s with connectionState := .disconnected, clientId := none },
       [Out.errorEmitted (authenticationFailed reason)]) := by
  have hauth : isAuthFailureClose 4001 reason = true := by
    simp [isAuthFailureClose]
  simp [handleDisconnect, hns, hauth]

/-- Claim C10 witness: code 4001 with an auth-free reason text on a connected
client. -/
theorem C10_code_4001_auth_witness :
    handleDisconnect c1Opts (1/2) 4001 "session expired" connectedState =
      ({ connectedState with connectionState := .disconnected, clientId := none },
       [Out.errorEmitted (authenticationFailed ("session expired"))]) :=
  C10_code_4001_auth c1Opts (1/2) "session expired" connectedState rfl

end Zhook
